import Mathlib

/-!
# AdSnap Studio — verification of the API request/response core

Shallow embedding of the AdSnap Studio core (parameter validator, transport
client, response normalizer, call orchestrators, event logs) translated from:

* `services/api_base.py`          — `BaseAPIService.make_request`, `validate_image_file`
* `services/hd_image_generation_improved.py` — `HDImageGenerationService.generate_hd_image`
* `app_improved.py`               — `APIManager.make_api_call`, `validate_image`
* `app_cleaned.py`                — `safe_api_call`, `log_generation_attempt`
* `utils/performance_monitor.py`  — `PerformanceMonitor.log_api_call`

Python exceptions are modelled as values of an inductive carrying the class
distinctions the code branches on and the `str(e)` message; fallible code
returns `Except`.  Wall-clock time is modelled as an explicit rational number
of seconds consumed by the transport attempt.  The HTTP world (the vendor's
server and the `requests` library) is an oracle value consumed by exactly one
attempt.  `PIL.Image.open` is modelled as wrapping the raw decoded bytes.
-/

/-- Python exception classes that the code distinguishes in `except` clauses:
`requests.RequestException` (including what `make_request` raises),
`ValueError` (validation failures, normalizer failures, `binascii.Error`),
and any other `Exception`.  The payload is `str(e)`. -/
inductive PyExc where
  | requestException (m : String)
  | valueError (m : String)
  | other (m : String)
deriving DecidableEq, Repr

/-- `str(e)` for a modelled Python exception. -/
def PyExc.msg : PyExc → String
  | .requestException m => m
  | .valueError m => m
  | .other m => m

/-- One element of `response_data['result']['images']`: either a JSON string
(the base64 branch) or any other JSON shape (`dict`, `list`, number …). -/
inductive ImageData where
  | str (s : String)
  | other
deriving DecidableEq, Repr

/-- A parsed JSON response body, restricted to the fields the code reads.
`result_images = some l` models `'result' in response_data and
'images' in response_data['result']` with `l` the images list; `none` models
either key being absent.  `result_url` / `result_urls` model the URL-shaped
vendor fields, which `generate_hd_image`'s normalizer never reads. -/
structure ResponseData where
  result_images : Option (List ImageData)
  result_url : Option String
  result_urls : Option (List String)
deriving DecidableEq, Repr

/-- Outcome of the single HTTP attempt `requests.post`/`requests.get` makes:
a response with a status code, the body text, and the result of
`response.json()` (`Except.error m` when JSON parsing raises with message
`m`); or a `requests.Timeout`; or a `requests.ConnectionError`; or any other
exception raised by the transport. -/
inductive HttpOutcome where
  | response (status : Nat) (text : String) (body : Except String ResponseData)
  | timeout
  | connError
  | otherExc (m : String)
deriving Repr

/-- The HTTP world seen by one transport attempt: its outcome together with
the wall-clock seconds the attempt consumed. -/
structure TransportWorld where
  outcome : HttpOutcome
  duration : ℚ
deriving Repr

/-- Python `str.upper()` (ASCII fragment, which covers the method strings the
code compares against). -/
def pyUpper (s : String) : String :=
  ⟨s.data.map Char.toUpper⟩

/-- `BaseAPIService.make_request` (`services/api_base.py`).  Returns the
result (`Except` in place of return-or-raise) paired with the number of HTTP
attempts performed.  Branch by branch from the source: a supported method
(`method.upper()` of `POST` or `GET`) performs exactly one attempt; status
200 returns `response.json()` (a JSON parse failure falls into the final
`except Exception` clause); any other status raises
`requests.RequestException("API Error: {status} - {text}")`;
`requests.Timeout` is re-raised as
`"Request timeout after {timeout}s for {endpoint}"`; `requests.ConnectionError`
as `"Connection error for {endpoint}"`; anything else as
`"Unexpected error for {endpoint}: {e}"`.  An unsupported method raises
`ValueError` before any attempt, caught by the same final clause. -/
def make_request (endpoint method : String) (w : TransportWorld) (timeout : Nat) :
    Except PyExc ResponseData × Nat :=
  if pyUpper method = "POST" ∨ pyUpper method = "GET" then
    match w.outcome with
    | .response status text body =>
      if status = 200 then
        match body with
        | .ok j => (.ok j, 1)
        | .error m =>
          (.error (.requestException ("Unexpected error for " ++ endpoint ++ ": " ++ m)), 1)
      else
        (.error (.requestException ("API Error: " ++ toString status ++ " - " ++ text)), 1)
    | .timeout =>
      (.error (.requestException
        ("Request timeout after " ++ toString timeout ++ "s for " ++ endpoint)), 1)
    | .connError =>
      (.error (.requestException ("Connection error for " ++ endpoint)), 1)
    | .otherExc m =>
      (.error (.requestException ("Unexpected error for " ++ endpoint ++ ": " ++ m)), 1)
  else
    (.error (.requestException
      ("Unexpected error for " ++ endpoint ++ ": Unsupported HTTP method: " ++ method)), 0)

/-- Claim C4: for every invocation of `make_request` with a supported method,
an HTTP 200 response returns the parsed JSON body, any non-200 status fails
with an error carrying that status code and the response body text, and
exactly one HTTP attempt is performed with no internal retry. -/
theorem make_request_contract (endpoint method : String) (w : TransportWorld) (t : Nat)
    (hm : pyUpper method = "POST" ∨ pyUpper method = "GET") :
    (make_request endpoint method w t).2 = 1 ∧
    (∀ text j, w.outcome = .response 200 text (.ok j) →
      (make_request endpoint method w t).1 = .ok j) ∧
    (∀ s text body, w.outcome = .response s text body → s ≠ 200 →
      (make_request endpoint method w t).1 =
        .error (.requestException ("API Error: " ++ toString s ++ " - " ++ text))) := by
  unfold make_request
  rw [if_pos hm]
  refine ⟨?_, ?_, ?_⟩
  · cases h : w.outcome with
    | response status text body =>
      by_cases h200 : status = 200
      · subst h200
        cases body <;> simp
      · simp [h200]
    | timeout => simp
    | connError => simp
    | otherExc m => simp
  · intro text j hw
    rw [hw]
    simp
  · intro s text body hw hs
    rw [hw]
    simp [hs]

/-- Witness for C4: a concrete 200 response parses, a concrete 404 response
carries the status and body text, and one attempt is made. -/
theorem make_request_contract_witness :
    (make_request "v1/text-to-image" "POST"
      ⟨.response 200 "ok" (.ok ⟨none, none, none⟩), 1⟩ 60).2 = 1 ∧
    (make_request "v1/text-to-image" "POST"
      ⟨.response 200 "ok" (.ok ⟨none, none, none⟩), 1⟩ 60).1 = .ok ⟨none, none, none⟩ ∧
    (make_request "v1/text-to-image" "POST"
      ⟨.response 404 "not found" (.error "no json"), 1⟩ 60).1 =
      .error (.requestException ("API Error: " ++ toString 404 ++ " - " ++ "not found")) := by
  have hm : pyUpper "POST" = "POST" ∨ pyUpper "POST" = "GET" := Or.inl (by decide)
  have h1 := make_request_contract "v1/text-to-image" "POST"
    ⟨.response 200 "ok" (.ok ⟨none, none, none⟩), 1⟩ 60 hm
  have h2 := make_request_contract "v1/text-to-image" "POST"
    ⟨.response 404 "not found" (.error "no json"), 1⟩ 60 hm
  exact ⟨h1.1, h1.2.1 "ok" ⟨none, none, none⟩ rfl,
    h2.2.2 404 "not found" (.error "no json") rfl (by decide)⟩

/-- The standard base64 alphabet character for a sextet `n < 64`
(`A`–`Z`, `a`–`z`, `0`–`9`, `+`, `/`), as used by Python's
`base64.b64encode` / `base64.b64decode`. -/
def b64Char (n : Nat) : Char :=
  if n < 26 then Char.ofNat (65 + n)
  else if n < 52 then Char.ofNat (97 + (n - 26))
  else if n < 62 then Char.ofNat (48 + (n - 52))
  else if n = 62 then '+'
  else '/'

/-- Inverse alphabet lookup: the sextet a base64 character denotes, `none`
for characters outside the alphabet. -/
def b64Index (c : Char) : Option Nat :=
  if 'A' ≤ c ∧ c ≤ 'Z' then some (c.toNat - 65)
  else if 'a' ≤ c ∧ c ≤ 'z' then some (c.toNat - 97 + 26)
  else if '0' ≤ c ∧ c ≤ '9' then some (c.toNat - 48 + 52)
  else if c = '+' then some 62
  else if c = '/' then some 63
  else none

/-- `base64.b64encode` on a byte sequence, producing the character stream:
each 3-byte group becomes 4 sextet characters; a trailing 2-byte group
becomes 3 characters plus `=`; a trailing single byte becomes 2 characters
plus `==`. -/
def encodeB64Chars : List Nat → List Char
  | [] => []
  | [a] => [b64Char (a / 4), b64Char (a % 4 * 16), '=', '=']
  | [a, b] => [b64Char (a / 4), b64Char (a % 4 * 16 + b / 16), b64Char (b % 16 * 4), '=']
  | a :: b :: c :: rest =>
    b64Char (a / 4) :: b64Char (a % 4 * 16 + b / 16) ::
      b64Char (b % 16 * 4 + c / 64) :: b64Char (c % 64) :: encodeB64Chars rest

/-- `base64.b64decode` on a character stream (the strict well-formed core of
Python's decoder: groups of 4 alphabet characters, with `=`-padding only in
the final group).  Returns `none` where Python raises `binascii.Error`. -/
def decodeB64Chars : List Char → Option (List Nat)
  | [] => some []
  | c1 :: c2 :: c3 :: c4 :: rest => do
    let i1 ← b64Index c1
    let i2 ← b64Index c2
    if c3 = '=' then
      if c4 = '=' ∧ rest = [] then some [i1 * 4 + i2 / 16] else none
    else
      let i3 ← b64Index c3
      if c4 = '=' then
        if rest = [] then some [i1 * 4 + i2 / 16, i2 % 16 * 16 + i3 / 4] else none
      else
        let i4 ← b64Index c4
        let bs ← decodeB64Chars rest
        some ((i1 * 4 + i2 / 16) :: (i2 % 16 * 16 + i3 / 4) :: (i3 % 4 * 64 + i4) :: bs)
  | _ => none

/-- `base64.b64encode` as a `String`-producing function. -/
def b64encode (l : List Nat) : String :=
  ⟨encodeB64Chars l⟩

/-- `base64.b64decode` as a `String`-consuming function. -/
def b64decode (s : String) : Option (List Nat) :=
  decodeB64Chars s.data

/-- Decoding the alphabet character of any sextet recovers the sextet. -/
theorem b64Index_b64Char : ∀ n, n < 64 → b64Index (b64Char n) = some n := by
  decide

/-- No alphabet character is the padding character. -/
theorem b64Char_ne_pad : ∀ n, n < 64 → b64Char n ≠ '=' := by
  decide

/-- Decoding inverts encoding on every byte sequence. -/
theorem decodeB64Chars_encodeB64Chars :
    ∀ l : List Nat, (∀ x ∈ l, x < 256) →
      decodeB64Chars (encodeB64Chars l) = some l
  | [], _ => rfl
  | [a], h => by
    have ha : a < 256 := h a (by simp)
    have h1 := b64Index_b64Char (a / 4) (by omega)
    have h2 := b64Index_b64Char (a % 4 * 16) (by omega)
    simp [encodeB64Chars, decodeB64Chars, h1, h2]
    omega
  | [a, b], h => by
    have ha : a < 256 := h a (by simp)
    have hb : b < 256 := h b (by simp)
    have h1 := b64Index_b64Char (a / 4) (by omega)
    have h2 := b64Index_b64Char (a % 4 * 16 + b / 16) (by omega)
    have h3 := b64Index_b64Char (b % 16 * 4) (by omega)
    have hne3 := b64Char_ne_pad (b % 16 * 4) (by omega)
    simp [encodeB64Chars, decodeB64Chars, h1, h2, h3, hne3]
    omega
  | a :: b :: c :: rest, h => by
    have ha : a < 256 := h a (by simp)
    have hb : b < 256 := h b (by simp)
    have hc : c < 256 := h c (by simp)
    have ih := decodeB64Chars_encodeB64Chars rest
      (fun x hx => h x (by simp [hx]))
    have h1 := b64Index_b64Char (a / 4) (by omega)
    have h2 := b64Index_b64Char (a % 4 * 16 + b / 16) (by omega)
    have h3 := b64Index_b64Char (b % 16 * 4 + c / 64) (by omega)
    have h4 := b64Index_b64Char (c % 64) (by omega)
    have hne3 := b64Char_ne_pad (b % 16 * 4 + c / 64) (by omega)
    have hne4 := b64Char_ne_pad (c % 64) (by omega)
    simp [encodeB64Chars, decodeB64Chars, h1, h2, h3, h4, hne3, hne4, ih]
    omega

/-- Python `str.strip()` with no argument: drop leading and trailing
whitespace (modelled over `Char.isWhitespace`, which covers the blank,
tab, carriage-return and newline characters). -/
def pyStrip (s : String) : String :=
  ⟨((s.data.dropWhile Char.isWhitespace).reverse.dropWhile Char.isWhitespace).reverse⟩

/-- The response-processing section of `HDImageGenerationService.generate_hd_image`
(`services/hd_image_generation_improved.py`, the code after `make_request`
returns): checks `'result' in response_data and 'images' in
response_data['result']`, takes `images[0]` (an empty list raises
`IndexError("list index out of range")`), and if it is a string decodes it
with `base64.b64decode` (raising `binascii.Error`, a `ValueError` subclass,
on malformed input) and opens the decoded bytes as an image — modelled as
returning the decoded bytes; a non-string first element raises
`ValueError("Unexpected image format in response")`; a body without the
field raises `ValueError("Invalid response format from API")`. -/
def processResponse (rd : ResponseData) : Except PyExc (List Nat) :=
  match rd.result_images with
  | some imgs =>
    match imgs.head? with
    | some (.str s) =>
      match b64decode s with
      | some bytes => .ok bytes
      | none => .error (.valueError "Incorrect padding")
    | some .other => .error (.valueError "Unexpected image format in response")
    | none => .error (.other "list index out of range")
  | none => .error (.valueError "Invalid response format from API")

/-- `HDImageGenerationService.generate_hd_image`
(`services/hd_image_generation_improved.py`), check for check in source
order, then the `make_request` call (endpoint `v1/text-to-image`, default
method `POST`, default timeout 60) and the response processing.  Returns the
result (decoded image bytes in place of the `PIL.Image`) paired with the
number of HTTP attempts performed. -/
def generate_hd_image (prompt : String) (width height num_inference_steps : Int)
    (guidance_scale : ℚ) (w : TransportWorld) : Except PyExc (List Nat) × Nat :=
  if prompt = "" ∨ (pyStrip prompt).length = 0 then
    (.error (.valueError "Prompt cannot be empty"), 0)
  else if ¬(256 ≤ width ∧ width ≤ 1024) ∨ width % 64 ≠ 0 then
    (.error (.valueError "Width must be between 256-1024 and divisible by 64"), 0)
  else if ¬(256 ≤ height ∧ height ≤ 1024) ∨ height % 64 ≠ 0 then
    (.error (.valueError "Height must be between 256-1024 and divisible by 64"), 0)
  else if ¬(10 ≤ num_inference_steps ∧ num_inference_steps ≤ 50) then
    (.error (.valueError "Inference steps must be between 10-50"), 0)
  else if ¬(1 ≤ guidance_scale ∧ guidance_scale ≤ 20) then
    (.error (.valueError "Guidance scale must be between 1.0-20.0"), 0)
  else
    match make_request "v1/text-to-image" "POST" w 60 with
    | (.ok rd, n) => (processResponse rd, n)
    | (.error e, n) => (.error e, n)

/-- Claim C9: base64-encoding any byte sequence and passing the resulting
string through the normalizer's string branch reproduces byte-identical
image content. -/
theorem processResponse_roundtrip (bytes : List Nat) (h : ∀ x ∈ bytes, x < 256)
    (ru : Option String) (rus : Option (List String)) (rest : List ImageData) :
    processResponse ⟨some (.str (b64encode bytes) :: rest), ru, rus⟩ = .ok bytes := by
  simp [processResponse, b64decode, b64encode, decodeB64Chars_encodeB64Chars bytes h]

/-- Witness for C9: the PNG magic bytes survive the round trip. -/
theorem processResponse_roundtrip_witness :
    processResponse ⟨some [.str (b64encode [137, 80, 78, 71])], none, none⟩ =
      .ok [137, 80, 78, 71] :=
  processResponse_roundtrip [137, 80, 78, 71] (by decide) none none []

/-- Counterexample for C3: a response body carrying only a `result_url`
field is not returned as-is by the normalizer — `generate_hd_image` never
reads `result_url`/`result_urls`, so the body falls into the
Response-Format branch `ValueError("Invalid response format from API")`. -/
theorem processResponse_result_url_counterexample :
    processResponse ⟨none, some "https://cdn.example.com/img.png", none⟩ =
      .error (.valueError "Invalid response format from API") := rfl

/-- Claim C3 (amended): if the image payload field is present and its first
element is a string, the normalizer decodes it as base64 and returns the
decoded image bytes (a `ValueError` where the decoder rejects the string);
if the payload field is absent — regardless of any `result_url` /
`result_urls` fields, which are never read — it fails with the
Response-Format error; a present but non-string first element fails with
the unrecognized-shape error. -/
theorem processResponse_shapes (rd : ResponseData) :
    (∀ s rest, rd.result_images = some (.str s :: rest) →
      ((∃ bytes, b64decode s = some bytes ∧ processResponse rd = .ok bytes) ∨
       (b64decode s = none ∧
        processResponse rd = .error (.valueError "Incorrect padding")))) ∧
    (rd.result_images = none →
      processResponse rd = .error (.valueError "Invalid response format from API")) ∧
    (∀ rest, rd.result_images = some (.other :: rest) →
      processResponse rd = .error (.valueError "Unexpected image format in response")) := by
  refine ⟨?_, ?_, ?_⟩
  · intro s rest hri
    cases hd : b64decode s with
    | some bytes =>
      exact Or.inl ⟨bytes, rfl, by simp [processResponse, hri, hd]⟩
    | none =>
      exact Or.inr ⟨rfl, by simp [processResponse, hri, hd]⟩
  · intro hri
    simp [processResponse, hri]
  · intro rest hri
    simp [processResponse, hri]

/-- Witness for the amended C3: a base64 string decodes, an absent payload
field (even alongside a `result_url`) is a format error, and a non-string
first element is an unrecognized shape. -/
theorem processResponse_shapes_witness :
    processResponse ⟨some [.str "AA=="], none, none⟩ = .ok [0] ∧
    processResponse ⟨none, some "https://x", none⟩ =
      .error (.valueError "Invalid response format from API") ∧
    processResponse ⟨some [.other], none, none⟩ =
      .error (.valueError "Unexpected image format in response") := by
  have h1 := (processResponse_shapes ⟨some [.str "AA=="], none, none⟩).1 "AA==" [] rfl
  have h2 := (processResponse_shapes ⟨none, some "https://x", none⟩).2.1 rfl
  have h3 := (processResponse_shapes ⟨some [.other], none, none⟩).2.2 [] rfl
  refine ⟨?_, h2, h3⟩
  rcases h1 with ⟨bytes, hdec, hres⟩ | ⟨hdec, _⟩
  · have hb : (some [0] : Option (List Nat)) = some bytes := by
      rw [← hdec]; decide
    obtain rfl : ([0] : List Nat) = bytes := Option.some.inj hb
    exact hres
  · exact absurd hdec (by decide)

/-- Claim C5: each out-of-range parameter makes `generate_hd_image` fail
with a `ValueError` naming the offending field before any network call
(zero HTTP attempts); the checks run in source order, so the error names
the first offending field. -/
theorem generate_hd_image_validation (prompt : String)
    (width height steps : Int) (g : ℚ) (w : TransportWorld) :
    ((pyStrip prompt).length = 0 →
      generate_hd_image prompt width height steps g w =
        (.error (.valueError "Prompt cannot be empty"), 0)) ∧
    ((pyStrip prompt).length ≠ 0 →
      (¬(256 ≤ width ∧ width ≤ 1024) ∨ width % 64 ≠ 0) →
      generate_hd_image prompt width height steps g w =
        (.error (.valueError "Width must be between 256-1024 and divisible by 64"), 0)) ∧
    ((pyStrip prompt).length ≠ 0 →
      ((256 ≤ width ∧ width ≤ 1024) ∧ width % 64 = 0) →
      (¬(256 ≤ height ∧ height ≤ 1024) ∨ height % 64 ≠ 0) →
      generate_hd_image prompt width height steps g w =
        (.error (.valueError "Height must be between 256-1024 and divisible by 64"), 0)) ∧
    ((pyStrip prompt).length ≠ 0 →
      ((256 ≤ width ∧ width ≤ 1024) ∧ width % 64 = 0) →
      ((256 ≤ height ∧ height ≤ 1024) ∧ height % 64 = 0) →
      ¬(10 ≤ steps ∧ steps ≤ 50) →
      generate_hd_image prompt width height steps g w =
        (.error (.valueError "Inference steps must be between 10-50"), 0)) ∧
    ((pyStrip prompt).length ≠ 0 →
      ((256 ≤ width ∧ width ≤ 1024) ∧ width % 64 = 0) →
      ((256 ≤ height ∧ height ≤ 1024) ∧ height % 64 = 0) →
      (10 ≤ steps ∧ steps ≤ 50) →
      ¬(1 ≤ g ∧ g ≤ 20) →
      generate_hd_image prompt width height steps g w =
        (.error (.valueError "Guidance scale must be between 1.0-20.0"), 0)) := by
  have hempty : prompt = "" → (pyStrip prompt).length = 0 := by
    intro h; subst h; rfl
  refine ⟨?_, ?_, ?_, ?_, ?_⟩
  · intro h0
    simp [generate_hd_image, h0]
  · intro hp hw
    have hcond : ¬(prompt = "" ∨ (pyStrip prompt).length = 0) := by
      rintro (h | h)
      · exact hp (hempty h)
      · exact hp h
    rw [generate_hd_image, if_neg hcond, if_pos hw]
  · intro hp hw hh
    have hcond : ¬(prompt = "" ∨ (pyStrip prompt).length = 0) := by
      rintro (h | h)
      · exact hp (hempty h)
      · exact hp h
    have hwok : ¬(¬(256 ≤ width ∧ width ≤ 1024) ∨ width % 64 ≠ 0) := by
      push_neg
      exact hw
    rw [generate_hd_image, if_neg hcond, if_neg hwok, if_pos hh]
  · intro hp hw hh hs
    have hcond : ¬(prompt = "" ∨ (pyStrip prompt).length = 0) := by
      rintro (h | h)
      · exact hp (hempty h)
      · exact hp h
    have hwok : ¬(¬(256 ≤ width ∧ width ≤ 1024) ∨ width % 64 ≠ 0) := by
      push_neg
      exact hw
    have hhok : ¬(¬(256 ≤ height ∧ height ≤ 1024) ∨ height % 64 ≠ 0) := by
      push_neg
      exact hh
    rw [generate_hd_image, if_neg hcond, if_neg hwok, if_neg hhok, if_pos hs]
  · intro hp hw hh hs hg
    have hcond : ¬(prompt = "" ∨ (pyStrip prompt).length = 0) := by
      rintro (h | h)
      · exact hp (hempty h)
      · exact hp h
    have hwok : ¬(¬(256 ≤ width ∧ width ≤ 1024) ∨ width % 64 ≠ 0) := by
      push_neg
      exact hw
    have hhok : ¬(¬(256 ≤ height ∧ height ≤ 1024) ∨ height % 64 ≠ 0) := by
      push_neg
      exact hh
    have hsok : ¬¬(10 ≤ steps ∧ steps ≤ 50) := not_not_intro hs
    rw [generate_hd_image, if_neg hcond, if_neg hwok, if_neg hhok, if_neg hsok, if_pos hg]

/-- Witness for C5: the spec scenario — a non-empty prompt with
`width = 300` (not a multiple of 64) fails naming the width, with zero
HTTP attempts, whatever the HTTP world would have answered. -/
theorem generate_hd_image_validation_witness :
    generate_hd_image "a red shoe on white background" 300 512 20 (15/2)
      ⟨.response 200 "" (.ok ⟨none, none, none⟩), 1⟩ =
      (.error (.valueError "Width must be between 256-1024 and divisible by 64"), 0) :=
  (generate_hd_image_validation "a red shoe on white background" 300 512 20 (15/2)
      ⟨.response 200 "" (.ok ⟨none, none, none⟩), 1⟩).2.1
    (by decide) (by decide)

/-- One entry of the `st.session_state.api_calls` event log
(`PerformanceMonitor.log_api_call`, `utils/performance_monitor.py`): service
name, elapsed duration, `"success"`/`"error"` status, optional error text.
(The wall-clock timestamp field is not modelled.) -/
structure ApiCallEntry where
  service : String
  duration : ℚ
  status : String
  error : Option String
deriving DecidableEq, Repr

/-- One entry of `st.session_state.performance_data`
(`PerformanceMonitor.monitor_operation`): operation name and duration.
(The memory delta and timestamp fields are not modelled.) -/
structure PerfEntry where
  operation : String
  duration : ℚ
deriving DecidableEq, Repr

/-- `PerformanceMonitor.log_api_call` (`utils/performance_monitor.py`):
append one entry to the `api_calls` list.  No cap is applied. -/
def log_api_call (service : String) (duration : ℚ) (status : String)
    (error : Option String) (api_calls : List ApiCallEntry) : List ApiCallEntry :=
  api_calls ++ [⟨service, duration, status, error⟩]

/-- The session-state lists `APIManager.make_api_call` appends to. -/
structure MonState where
  performance_data : List PerfEntry
  api_calls : List ApiCallEntry
deriving Repr

/-- A finished invocation of a wrapped service function, as an orchestrator
observes it: the returned value or raised exception, plus the wall-clock
seconds the call consumed (what `time.time() - start_time` measures). -/
structure ServiceCall (α : Type) where
  result : Except PyExc α
  elapsed : ℚ

/-- `APIManager.make_api_call` (`app_improved.py`).  The `monitor_operation`
context manager appends one `performance_data` entry in its `finally` block
(on the success path and on the exception path alike); then the success path
appends one `api_calls` entry with status `"success"`, and the
`except Exception` path one with status `"error"` and `str(e)`.  Returns
`(result, None)` on success and `(None, error_msg)` on any exception.
(`AdSnapLogger.log_api_call` writes to the log file, not to session state,
and is not modelled.) -/
def make_api_call {α : Type} (service_name : String) (c : ServiceCall α)
    (st : MonState) : (Option α × Option String) × MonState :=
  let st1 : MonState :=
    { st with performance_data :=
        st.performance_data ++ [⟨"API_" ++ service_name, c.elapsed⟩] }
  match c.result with
  | .ok v =>
    ((some v, none),
      { st1 with api_calls :=
          log_api_call service_name c.elapsed "success" none st1.api_calls })
  | .error e =>
    ((none, some e.msg),
      { st1 with api_calls :=
          log_api_call service_name c.elapsed "error" (some e.msg) st1.api_calls })

/-- The `performance_metrics` dictionary of `app_cleaned.py`'s session
state. -/
structure PerfMetrics where
  total_generations : Nat
  successful_generations : Nat
  average_generation_time : ℚ
  error_count : Nat
deriving DecidableEq, Repr

/-- One entry of `st.session_state.generation_history`
(`log_generation_attempt`, `app_cleaned.py`): operation name, success flag,
optional duration, optional error text.  (The timestamp is not modelled.)
Entries are constructed once and are only ever appended or dropped, never
mutated. -/
structure HistoryEntry where
  operation : String
  success : Bool
  duration : Option ℚ
  error : Option String
deriving DecidableEq, Repr

/-- The session state `app_cleaned.py` mutates. -/
structure CleanState where
  performance_metrics : PerfMetrics
  generation_history : List HistoryEntry
deriving Repr

/-- The all-zero `performance_metrics` default
(`initialize_session_state`, `app_cleaned.py`). -/
def initial_metrics : PerfMetrics :=
  ⟨0, 0, 0, 0⟩

/-- `log_generation_attempt` (`app_cleaned.py`): bump `total_generations`;
on success bump `successful_generations` and, when `duration` is truthy
(`if duration:` — neither `None` nor `0.0`), fold it into the rolling
average using the already-incremented success count; on failure bump
`error_count`.  Then append one history entry and, when the history exceeds
100 entries, keep only the last 100 (`history[-100:]`). -/
def log_generation_attempt (operation_type : String) (success : Bool)
    (duration : Option ℚ) (error : Option String) (st : CleanState) : CleanState :=
  let m0 := st.performance_metrics
  let m1 := { m0 with total_generations := m0.total_generations + 1 }
  let m2 :=
    if success then
      let m := { m1 with successful_generations := m1.successful_generations + 1 }
      match duration with
      | some d =>
        if d ≠ 0 then
          { m with average_generation_time :=
              (m.average_generation_time * ((m.successful_generations : ℚ) - 1) + d) /
                (m.successful_generations : ℚ) }
        else m
      | none => m
    else { m1 with error_count := m1.error_count + 1 }
  let hist1 := st.generation_history ++ [⟨operation_type, success, duration, error⟩]
  let hist2 := if hist1.length > 100 then hist1.drop (hist1.length - 100) else hist1
  { performance_metrics := m2, generation_history := hist2 }

/-- `safe_api_call` (`app_cleaned.py`): call the wrapped function; on
success log one attempt with `success=True` and return the bare result; on
`requests.exceptions.RequestException` / `ValueError` / any other exception
log one attempt with `success=False` and a class-prefixed message, surface
the message through `st.error`, and return the bare `None`.  The value
returned to the caller is an optional result only — the error text goes to
the log and the UI, not to the caller. -/
def safe_api_call {α : Type} (operation_name : String) (c : ServiceCall α)
    (st : CleanState) : Option α × CleanState :=
  match c.result with
  | .ok v =>
    (some v, log_generation_attempt operation_name true (some c.elapsed) none st)
  | .error (.requestException m) =>
    (none, log_generation_attempt operation_name false (some c.elapsed)
      (some ("Network error: " ++ m)) st)
  | .error (.valueError m) =>
    (none, log_generation_attempt operation_name false (some c.elapsed)
      (some ("Invalid input: " ++ m)) st)
  | .error (.other m) =>
    (none, log_generation_attempt operation_name false (some c.elapsed)
      (some ("Unexpected error: " ++ m)) st)

/-- A string with a non-empty left part stays non-empty under append. -/
theorem str_append_ne_empty (a x : String) (h : a ≠ "") : a ++ x ≠ "" := by
  intro hc
  apply h
  have hd : (a ++ x).data = ([] : List Char) := by rw [hc]
  rw [String.data_append] at hd
  have ha : a.data = [] := (List.append_eq_nil.mp hd).1
  cases a with
  | mk d =>
    simp only [String.data] at ha
    subst ha
    rfl

/-- Strings whose first characters differ are different. -/
theorem str_ne_of_head_ne (s t : String)
    (h : s.data.head? ≠ t.data.head?) : s ≠ t :=
  fun hc => h (by rw [hc])

/-- Appending on the right does not change a non-empty string's first
character. -/
theorem str_head_append (a x : String) (h : a ≠ "") :
    (a ++ x).data.head? = a.data.head? := by
  rw [String.data_append]
  cases hd : a.data with
  | nil =>
    refine absurd ?_ h
    cases a with
    | mk d =>
      simp only [String.data] at hd
      subst hd
      rfl
  | cons c cs => simp

/-- Every error `make_request` can produce carries a non-empty message:
each raise site prefixes a fixed non-empty string. -/
theorem make_request_error_msg_ne_empty (endpoint method : String)
    (w : TransportWorld) (t : Nat) (e : PyExc)
    (h : (make_request endpoint method w t).1 = .error e) : e.msg ≠ "" := by
  unfold make_request at h
  split at h
  · cases hw : w.outcome with
    | response status text body =>
      rw [hw] at h
      by_cases h200 : status = 200
      · subst h200
        cases body with
        | ok j => simp at h
        | error m =>
          simp at h
          subst h
          exact str_append_ne_empty _ _
            (str_append_ne_empty _ _ (str_append_ne_empty _ _ (by decide)))
      · simp only [if_neg h200] at h
        simp at h
        subst h
        exact str_append_ne_empty _ _
          (str_append_ne_empty _ _ (str_append_ne_empty _ _ (by decide)))
    | timeout =>
      rw [hw] at h
      simp at h
      subst h
      exact str_append_ne_empty _ _
        (str_append_ne_empty _ _ (str_append_ne_empty _ _ (by decide)))
    | connError =>
      rw [hw] at h
      simp at h
      subst h
      exact str_append_ne_empty _ _ (by decide)
    | otherExc m =>
      rw [hw] at h
      simp at h
      subst h
      exact str_append_ne_empty _ _
        (str_append_ne_empty _ _ (str_append_ne_empty _ _ (by decide)))
  · simp at h
    subst h
    exact str_append_ne_empty _ _
      (str_append_ne_empty _ _ (str_append_ne_empty _ _ (by decide)))

/-- Every error the response normalizer can produce carries a non-empty
message. -/
theorem processResponse_error_msg_ne_empty (rd : ResponseData) (e : PyExc)
    (h : processResponse rd = .error e) : e.msg ≠ "" := by
  unfold processResponse at h
  split at h
  · split at h
    · split at h
      · simp at h
      · injection h with h2
        subst h2
        decide
    · injection h with h2
      subst h2
      decide
    · injection h with h2
      subst h2
      decide
  · injection h with h2
    subst h2
    decide

/-- Every error `generate_hd_image` can produce — validation, transport, or
normalization — carries a non-empty message. -/
theorem generate_hd_image_error_msg_ne_empty (prompt : String)
    (width height steps : Int) (g : ℚ) (w : TransportWorld) (e : PyExc)
    (h : (generate_hd_image prompt width height steps g w).1 = .error e) :
    e.msg ≠ "" := by
  unfold generate_hd_image at h
  split_ifs at h with h1 h2 h3 h4 h5
  all_goals try (cases h; decide)
  cases hm : make_request "v1/text-to-image" "POST" w 60 with
  | mk res n =>
    rw [hm] at h
    cases res with
    | error e2 =>
      simp at h
      subst h
      exact make_request_error_msg_ne_empty _ _ _ _ _ (by rw [hm])
    | ok rd =>
      simp at h
      exact processResponse_error_msg_ne_empty rd e h

/-- Counterexample for C1: `safe_api_call` does not return a result/error
pair.  A failing call returns the bare `None`; in particular its returned
value carries no error message at all — the return for a
`ValueError("boom")` equals the return for a `ValueError("other")` — which
contradicts the claim that the orchestrator returns `(None, m)` with `m`
the (non-empty) error message. -/
theorem safe_api_call_no_pair_counterexample :
    (safe_api_call "hd_image_generation"
      (⟨.error (.valueError "boom"), 1⟩ : ServiceCall Nat)
      ⟨initial_metrics, []⟩).1 = none ∧
    (safe_api_call "hd_image_generation"
      (⟨.error (.valueError "boom"), 1⟩ : ServiceCall Nat)
      ⟨initial_metrics, []⟩).1 =
    (safe_api_call "hd_image_generation"
      (⟨.error (.valueError "other"), 1⟩ : ServiceCall Nat)
      ⟨initial_metrics, []⟩).1 :=
  ⟨rfl, rfl⟩

/-- Claim C1 (amended): neither orchestrator lets an exception propagate.
`make_api_call` returns the success-exclusive-or-failure pair — `(some v,
none)` when the wrapped function returns `v`, `(none, some (str e))` when
it raises `e` — and for the repository's `generate_hd_image` service that
message is never empty.  `safe_api_call` likewise never propagates, but
returns only the bare optional result (`some v` on success, `none` on
failure); the error text is recorded in the event log and UI, not returned
to the caller. -/
theorem orchestrators_capture_exceptions {α : Type} (name : String)
    (c : ServiceCall α) (st : MonState) (stc : CleanState) :
    ((∃ v, c.result = .ok v ∧ (make_api_call name c st).1 = (some v, none)) ∨
     (∃ e, c.result = .error e ∧ (make_api_call name c st).1 = (none, some e.msg))) ∧
    ((∃ v, c.result = .ok v ∧ (safe_api_call name c stc).1 = some v) ∨
     (∃ e, c.result = .error e ∧ (safe_api_call name c stc).1 = none)) ∧
    (∀ (prompt : String) (width height steps : Int) (g : ℚ) (w : TransportWorld) (e : PyExc),
      (generate_hd_image prompt width height steps g w).1 = .error e → e.msg ≠ "") := by
  refine ⟨?_, ?_, fun p wd ht sp gg ww e he =>
    generate_hd_image_error_msg_ne_empty p wd ht sp gg ww e he⟩
  · cases hc : c.result with
    | ok v =>
      exact Or.inl ⟨v, rfl, by simp [make_api_call, hc]⟩
    | error e =>
      exact Or.inr ⟨e, rfl, by simp [make_api_call, hc]⟩
  · cases hc : c.result with
    | ok v =>
      exact Or.inl ⟨v, rfl, by simp [safe_api_call, hc]⟩
    | error e =>
      refine Or.inr ⟨e, rfl, ?_⟩
      cases e <;> simp [safe_api_call, hc]

/-- Witness for the amended C1: a successful call yields `(some 7, none)`
from `make_api_call` and `some 7` from `safe_api_call`; an empty prompt
makes `generate_hd_image` raise with the concrete non-empty message
`"Prompt cannot be empty"`. -/
theorem orchestrators_capture_exceptions_witness :
    (make_api_call "hd_image_generation"
      (⟨.ok 7, 2⟩ : ServiceCall Nat) ⟨[], []⟩).1 = (some 7, none) ∧
    (safe_api_call "hd_image_generation"
      (⟨.ok 7, 2⟩ : ServiceCall Nat) ⟨initial_metrics, []⟩).1 = some 7 ∧
    (PyExc.valueError "Prompt cannot be empty").msg ≠ "" := by
  obtain ⟨h1, h2, h3⟩ := orchestrators_capture_exceptions "hd_image_generation"
    (⟨.ok 7, 2⟩ : ServiceCall Nat) ⟨[], []⟩ ⟨initial_metrics, []⟩
  refine ⟨?_, ?_, ?_⟩
  · rcases h1 with ⟨v, hv, hr⟩ | ⟨e, he, _⟩
    · cases hv
      exact hr
    · exact absurd he (by simp)
  · rcases h2 with ⟨v, hv, hr⟩ | ⟨e, he, _⟩
    · cases hv
      exact hr
    · exact absurd he (by simp)
  · exact h3 "" 512 512 20 (15/2) ⟨.timeout, 1⟩ (.valueError "Prompt cannot be empty") rfl

/-- Claim C2: every invocation of `make_api_call` appends exactly one entry
to the `api_calls` event log — exactly one on the success path and exactly
one on the exception path — and that entry records the operation name, the
success/failure outcome, the elapsed duration, and the error message when
there is one. -/
theorem make_api_call_one_log_entry {α : Type} (service_name : String)
    (c : ServiceCall α) (st : MonState) :
    ∃ entry : ApiCallEntry,
      ((make_api_call service_name c st).2).api_calls = st.api_calls ++ [entry] ∧
      entry.service = service_name ∧
      entry.duration = c.elapsed ∧
      (∀ v, c.result = .ok v → entry.status = "success" ∧ entry.error = none) ∧
      (∀ e, c.result = .error e → entry.status = "error" ∧ entry.error = some e.msg) := by
  cases hc : c.result with
  | ok v =>
    refine ⟨⟨service_name, c.elapsed, "success", none⟩, ?_, rfl, rfl, ?_, ?_⟩
    · simp [make_api_call, hc, log_api_call]
    · intro _ _
      exact ⟨rfl, rfl⟩
    · intro e he
      simp at he
  | error e =>
    refine ⟨⟨service_name, c.elapsed, "error", some e.msg⟩, ?_, rfl, rfl, ?_, ?_⟩
    · simp [make_api_call, hc, log_api_call]
    · intro v hv
      simp at hv
    · intro e2 he2
      simp at he2
      subst he2
      exact ⟨rfl, rfl⟩

/-- Witness for C2: a concrete failing call appends exactly one entry,
with status `"error"` and the raised message. -/
theorem make_api_call_one_log_entry_witness :
    ∃ entry : ApiCallEntry,
      ((make_api_call "hd_image_generation"
        (⟨.error (.requestException "Connection error for v1/text-to-image"), 3⟩ :
          ServiceCall Nat) ⟨[], []⟩).2).api_calls = [] ++ [entry] ∧
      entry.status = "error" ∧
      entry.error = some "Connection error for v1/text-to-image" := by
  obtain ⟨entry, hlog, _, _, _, herr⟩ := make_api_call_one_log_entry "hd_image_generation"
    (⟨.error (.requestException "Connection error for v1/text-to-image"), 3⟩ :
      ServiceCall Nat) ⟨[], []⟩
  obtain ⟨hs, he⟩ := herr _ rfl
  exact ⟨entry, hlog, hs, he⟩

/-- An uploaded image file as Streamlit hands it to the validators: the
byte size and MIME type attributes that `validate_image_file` /
`validate_image` read (both attributes are present on every upload). -/
structure UploadedFile where
  size : Nat
  type : String
deriving DecidableEq, Repr

/-- `BaseAPIService.validate_image_file` (`services/api_base.py`): a falsy
(`None`) file returns `False`; a file larger than `10 * 1024 * 1024` bytes
raises `ValueError`; a MIME type outside the allow-list raises
`ValueError`; otherwise `True`. -/
def validate_image_file (image_file : Option UploadedFile) : Except PyExc Bool :=
  match image_file with
  | none => Except.ok false
  | some f =>
    if f.size > 10 * 1024 * 1024 then
      .error (.valueError "Image file too large (max 10MB)")
    else if f.type ∉ ["image/jpeg", "image/png", "image/webp"] then
      .error (.valueError ("Invalid file type. Supported: " ++
        String.intercalate ", " ["image/jpeg", "image/png", "image/webp"]))
    else Except.ok true

/-- `validate_image` (`app_improved.py`): the same checks, returning a
`(valid, message)` pair instead of raising. -/
def validate_image (image_file : Option UploadedFile) : Bool × String :=
  match image_file with
  | none => (false, "No image file provided")
  | some f =>
    if f.size > 10 * 1024 * 1024 then
      (false, "Image file too large (max 10MB)")
    else if f.type ∉ ["image/jpeg", "image/png", "image/webp"] then
      (false, "Invalid file type. Supported: " ++
        String.intercalate ", " ["image/jpeg", "image/png", "image/webp"])
    else (true, "Valid image")

/-- Claim C8: an uploaded file larger than 10 MiB fails validation, as does
one whose MIME type is outside {`image/jpeg`, `image/png`, `image/webp`};
a file within the size cap with an allowed MIME type passes both
validators. -/
theorem image_validation (f : UploadedFile) :
    (f.size > 10 * 1024 * 1024 →
      validate_image_file (some f) =
        .error (.valueError "Image file too large (max 10MB)") ∧
      (validate_image (some f)).1 = false) ∧
    (f.size ≤ 10 * 1024 * 1024 → f.type ∉ ["image/jpeg", "image/png", "image/webp"] →
      (∃ m, validate_image_file (some f) = .error (.valueError m)) ∧
      (validate_image (some f)).1 = false) ∧
    (f.size ≤ 10 * 1024 * 1024 → f.type ∈ ["image/jpeg", "image/png", "image/webp"] →
      validate_image_file (some f) = Except.ok true ∧
      validate_image (some f) = (true, "Valid image")) := by
  refine ⟨?_, ?_, ?_⟩
  · intro hbig
    exact ⟨by simp [validate_image_file, hbig], by simp [validate_image, hbig]⟩
  · intro hsize htype
    have hns : ¬f.size > 10 * 1024 * 1024 := not_lt.mpr hsize
    exact ⟨⟨"Invalid file type. Supported: " ++
        String.intercalate ", " ["image/jpeg", "image/png", "image/webp"],
      by simp [validate_image_file, hns, htype]⟩,
      by simp [validate_image, hns, htype]⟩
  · intro hsize htype
    have hns : ¬f.size > 10 * 1024 * 1024 := not_lt.mpr hsize
    exact ⟨by simp [validate_image_file, hns, htype], by simp [validate_image, hns, htype]⟩

/-- Witness for C8: an 11 MiB PNG is rejected, a GIF at any size is
rejected, and a small PNG passes both validators. -/
theorem image_validation_witness :
    validate_image_file (some ⟨11 * 1024 * 1024, "image/png"⟩) =
      .error (.valueError "Image file too large (max 10MB)") ∧
    (validate_image (some ⟨500, "image/gif"⟩)).1 = false ∧
    validate_image_file (some ⟨500, "image/png"⟩) = Except.ok true ∧
    validate_image (some ⟨500, "image/png"⟩) = (true, "Valid image") := by
  obtain ⟨hbig, _, _⟩ := image_validation ⟨11 * 1024 * 1024, "image/png"⟩
  obtain ⟨_, hgif, _⟩ := image_validation ⟨500, "image/gif"⟩
  obtain ⟨_, _, hok⟩ := image_validation ⟨500, "image/png"⟩
  obtain ⟨h1, h2⟩ := hbig (by norm_num)
  obtain ⟨_, h3⟩ := hgif (by norm_num) (by decide)
  obtain ⟨h4, h5⟩ := hok (by norm_num) (by decide)
  exact ⟨h1, h3, h4, h5⟩

/-- The counter identity `log_generation_attempt` maintains. -/
def metricsConsistent (m : PerfMetrics) : Prop :=
  m.total_generations = m.successful_generations + m.error_count

/-- The counters after one logged attempt: the total always grows by one,
and exactly one of the success or error counters grows by one (the rolling
average never touches a counter). -/
theorem log_generation_attempt_counters (op : String) (success : Bool)
    (duration : Option ℚ) (error : Option String) (st : CleanState) :
    (log_generation_attempt op success duration error st).performance_metrics.total_generations
      = st.performance_metrics.total_generations + 1 ∧
    (success = true →
      (log_generation_attempt op success duration error st).performance_metrics.successful_generations
        = st.performance_metrics.successful_generations + 1 ∧
      (log_generation_attempt op success duration error st).performance_metrics.error_count
        = st.performance_metrics.error_count) ∧
    (success = false →
      (log_generation_attempt op success duration error st).performance_metrics.error_count
        = st.performance_metrics.error_count + 1 ∧
      (log_generation_attempt op success duration error st).performance_metrics.successful_generations
        = st.performance_metrics.successful_generations) := by
  cases success with
  | true =>
    cases duration with
    | none =>
      exact ⟨rfl, fun _ => ⟨rfl, rfl⟩, fun h => by simp at h⟩
    | some d =>
      by_cases hd : d = 0
      · refine ⟨?_, fun _ => ⟨?_, ?_⟩, fun h => by simp at h⟩ <;>
          simp [log_generation_attempt, hd]
      · refine ⟨?_, fun _ => ⟨?_, ?_⟩, fun h => by simp at h⟩ <;>
          simp [log_generation_attempt, hd]
  | false =>
    exact ⟨rfl, fun h => by simp at h, fun _ => ⟨rfl, rfl⟩⟩

/-- Preservation: one logged attempt keeps the counter identity. -/
theorem log_generation_attempt_preserves (op : String) (success : Bool)
    (duration : Option ℚ) (error : Option String) (st : CleanState)
    (h : metricsConsistent st.performance_metrics) :
    metricsConsistent
      (log_generation_attempt op success duration error st).performance_metrics := by
  obtain ⟨ht, hs, hf⟩ := log_generation_attempt_counters op success duration error st
  unfold metricsConsistent at h ⊢
  cases success with
  | true =>
    obtain ⟨h1, h2⟩ := hs rfl
    omega
  | false =>
    obtain ⟨h1, h2⟩ := hf rfl
    omega

/-- An attempt as handed to `log_generation_attempt`: operation name,
success flag, optional duration, optional error text. -/
def logAttempts (events : List (String × Bool × Option ℚ × Option String))
    (st : CleanState) : CleanState :=
  events.foldl (fun s ev => log_generation_attempt ev.1 ev.2.1 ev.2.2.1 ev.2.2.2 s) st

/-- Any sequence of logged attempts preserves the counter identity. -/
theorem logAttempts_preserves (events : List (String × Bool × Option ℚ × Option String)) :
    ∀ st : CleanState, metricsConsistent st.performance_metrics →
      metricsConsistent (logAttempts events st).performance_metrics := by
  induction events with
  | nil => exact fun st h => h
  | cons ev rest ih =>
    intro st h
    exact ih _ (log_generation_attempt_preserves ev.1 ev.2.1 ev.2.2.1 ev.2.2.2 st h)

/-- Claim C10: every call to `log_generation_attempt` bumps
`total_generations` by exactly one and exactly one of
`successful_generations` or `error_count` by exactly one, so
`total_generations = successful_generations + error_count` is preserved;
from the all-zero initial metrics the identity therefore holds after any
sequence of logged attempts. -/
theorem usage_counter_consistency (op : String) (success : Bool)
    (duration : Option ℚ) (error : Option String) (st : CleanState)
    (events : List (String × Bool × Option ℚ × Option String))
    (hist : List HistoryEntry) :
    (log_generation_attempt op success duration error st).performance_metrics.total_generations
      = st.performance_metrics.total_generations + 1 ∧
    (success = true →
      (log_generation_attempt op success duration error st).performance_metrics.successful_generations
        = st.performance_metrics.successful_generations + 1 ∧
      (log_generation_attempt op success duration error st).performance_metrics.error_count
        = st.performance_metrics.error_count) ∧
    (success = false →
      (log_generation_attempt op success duration error st).performance_metrics.error_count
        = st.performance_metrics.error_count + 1 ∧
      (log_generation_attempt op success duration error st).performance_metrics.successful_generations
        = st.performance_metrics.successful_generations) ∧
    (metricsConsistent st.performance_metrics →
      metricsConsistent
        (log_generation_attempt op success duration error st).performance_metrics) ∧
    metricsConsistent (logAttempts events ⟨initial_metrics, hist⟩).performance_metrics := by
  obtain ⟨h1, h2, h3⟩ := log_generation_attempt_counters op success duration error st
  exact ⟨h1, h2, h3,
    log_generation_attempt_preserves op success duration error st,
    logAttempts_preserves events ⟨initial_metrics, hist⟩ rfl⟩

/-- Witness for C10: one success then one failure from the all-zero state
gives totals 2 = 1 + 1, via the claim theorem's increments. -/
theorem usage_counter_consistency_witness :
    (log_generation_attempt "hd" false none (some "err")
        (log_generation_attempt "hd" true (some 2) none
          ⟨initial_metrics, []⟩)).performance_metrics.total_generations = 2 ∧
    metricsConsistent
      (log_generation_attempt "hd" false none (some "err")
        (log_generation_attempt "hd" true (some 2) none
          ⟨initial_metrics, []⟩)).performance_metrics := by
  have hfirst := usage_counter_consistency "hd" true (some 2) none
    ⟨initial_metrics, []⟩ [] []
  have hsecond := usage_counter_consistency "hd" false none (some "err")
    (log_generation_attempt "hd" true (some 2) none ⟨initial_metrics, []⟩) [] []
  refine ⟨?_, ?_⟩
  · rw [hsecond.1, hfirst.1]
    rfl
  · exact hsecond.2.2.2.1 (hfirst.2.2.2.1 rfl)

/-- Counterexample for C7: the `api_calls` event log has no cap.  Starting
from a log already holding 100 entries (the bound the generation history is
trimmed to), one more `log_api_call` append yields 101 entries: the length
exceeds the fixed cap and no oldest entry is dropped. -/
theorem log_api_call_unbounded_counterexample :
    (log_api_call "hd_image_generation" 1 "success" none
        (List.replicate 100 ⟨"s", 0, "success", none⟩)).length = 101 ∧
    100 < 101 := by
  constructor
  · simp [log_api_call]
  · decide

/-- Claim C7 (amended): the generation-history event log is bounded — after
every `log_generation_attempt` on a history within the 100-entry cap the
history again holds at most 100 entries, and the oldest entries are dropped
first: the new history is a suffix of the old history extended by the new
entry, so entries are only appended or dropped, never mutated.  The
performance monitor's `api_calls` event log, by contrast, is unbounded:
each `log_api_call` grows it by exactly one appended entry and drops
nothing. -/
theorem event_log_bounds (op : String) (success : Bool) (duration : Option ℚ)
    (error : Option String) (st : CleanState)
    (service : String) (d : ℚ) (status : String) (err : Option String)
    (l : List ApiCallEntry)
    (hlen : st.generation_history.length ≤ 100) :
    (log_generation_attempt op success duration error st).generation_history.length ≤ 100 ∧
    (log_generation_attempt op success duration error st).generation_history <:+
      st.generation_history ++ [⟨op, success, duration, error⟩] ∧
    log_api_call service d status err l = l ++ [⟨service, d, status, err⟩] := by
  have hgen : (log_generation_attempt op success duration error st).generation_history =
      if (st.generation_history ++ [(⟨op, success, duration, error⟩ : HistoryEntry)]).length > 100 then
        (st.generation_history ++ [(⟨op, success, duration, error⟩ : HistoryEntry)]).drop
          ((st.generation_history ++ [(⟨op, success, duration, error⟩ : HistoryEntry)]).length - 100)
      else st.generation_history ++ [(⟨op, success, duration, error⟩ : HistoryEntry)] := rfl
  refine ⟨?_, ?_, rfl⟩
  · rw [hgen]
    split_ifs with hlong
    · simp only [List.length_drop, List.length_append, List.length_singleton]
      omega
    · simp only [List.length_append, List.length_singleton] at hlong ⊢
      omega
  · rw [hgen]
    split_ifs with hlong
    · exact List.drop_suffix _ _
    · exact List.suffix_refl _

/-- Witness for the amended C7: appending to a history already at the cap
keeps it at 100 entries, and one `log_api_call` on an empty log appends
exactly one entry. -/
theorem event_log_bounds_witness :
    (log_generation_attempt "hd" true (some 1) none
        ⟨initial_metrics, List.replicate 100 ⟨"old", true, none, none⟩⟩).generation_history.length
      ≤ 100 ∧
    log_api_call "s" 1 "success" none [] = [⟨"s", 1, "success", none⟩] := by
  obtain ⟨h1, _, h3⟩ := event_log_bounds "hd" true (some 1) none
    ⟨initial_metrics, List.replicate 100 ⟨"old", true, none, none⟩⟩ "s" 1 "success" none []
    (by simp)
  exact ⟨h1, h3⟩

/-- The first character of a four-part append is that of its (non-empty)
first part. -/
theorem str_head_append3 (a b c d : String) (h : a ≠ "") :
    (a ++ b ++ c ++ d).data.head? = a.data.head? := by
  rw [str_head_append _ _ (str_append_ne_empty _ _ (str_append_ne_empty _ _ h)),
    str_head_append _ _ (str_append_ne_empty _ _ h),
    str_head_append _ _ h]

/-- The Timeout message of `make_request` differs from every Network
(non-200) message and from every Connection message: the fixed leading
literals start with different characters. -/
theorem timeout_msg_distinct (t : Nat) (ep : String) (s : Nat) (text ep2 : String) :
    ("Request timeout after " ++ toString t ++ "s for " ++ ep ≠
      "API Error: " ++ toString s ++ " - " ++ text) ∧
    ("Request timeout after " ++ toString t ++ "s for " ++ ep ≠
      "Connection error for " ++ ep2) := by
  constructor
  · apply str_ne_of_head_ne
    rw [str_head_append3 _ _ _ _ (show "Request timeout after " ≠ "" by decide),
      str_head_append3 _ _ _ _ (show "API Error: " ≠ "" by decide)]
    decide
  · apply str_ne_of_head_ne
    rw [str_head_append3 _ _ _ _ (show "Request timeout after " ≠ "" by decide),
      str_head_append _ _ (show "Connection error for " ≠ "" by decide)]
    decide

/-- The HD-image service call as `make_api_call` observes it: the result of
`generate_hd_image` together with the wall-clock seconds the call consumed
— the transport attempt's duration when an attempt was made, and zero when
validation rejected the input before any attempt. -/
def hd_service_call (prompt : String) (width height steps : Int) (g : ℚ)
    (w : TransportWorld) : ServiceCall (List Nat) where
  result := (generate_hd_image prompt width height steps g w).1
  elapsed :=
    if (generate_hd_image prompt width height steps g w).2 = 0 then 0 else w.duration

/-- Claim C6: when the transport attempt for a valid HD-image request times
out having consumed at least the configured 60-second deadline (the
`requests` library raises `Timeout` only once the deadline has passed), the
orchestrated call result is the Timeout failure — whose message differs from
every Network message and every Connection message — and exactly one log
entry is appended, whose recorded elapsed time is at least the deadline. -/
theorem timeout_call_one_entry (prompt : String) (width height steps : Int)
    (g : ℚ) (w : TransportWorld) (st : MonState)
    (hp : (pyStrip prompt).length ≠ 0)
    (hw : (256 ≤ width ∧ width ≤ 1024) ∧ width % 64 = 0)
    (hh : (256 ≤ height ∧ height ≤ 1024) ∧ height % 64 = 0)
    (hs : 10 ≤ steps ∧ steps ≤ 50)
    (hg : 1 ≤ g ∧ g ≤ 20)
    (hto : w.outcome = .timeout)
    (hd : (60 : ℚ) ≤ w.duration) :
    (make_api_call "hd_image_generation"
        (hd_service_call prompt width height steps g w) st).1 =
      (none, some ("Request timeout after " ++ toString 60 ++ "s for " ++
        "v1/text-to-image")) ∧
    (∃ entry : ApiCallEntry,
      ((make_api_call "hd_image_generation"
          (hd_service_call prompt width height steps g w) st).2).api_calls =
        st.api_calls ++ [entry] ∧
      entry.duration = w.duration ∧ (60 : ℚ) ≤ entry.duration) ∧
    (∀ (s : Nat) (text : String),
      ("Request timeout after " ++ toString 60 ++ "s for " ++ "v1/text-to-image") ≠
        "API Error: " ++ toString s ++ " - " ++ text) ∧
    (∀ ep2 : String,
      ("Request timeout after " ++ toString 60 ++ "s for " ++ "v1/text-to-image") ≠
        "Connection error for " ++ ep2) := by
  have hcond : ¬(prompt = "" ∨ (pyStrip prompt).length = 0) := by
    rintro (h | h)
    · subst h
      exact hp rfl
    · exact hp h
  have hwok : ¬(¬(256 ≤ width ∧ width ≤ 1024) ∨ width % 64 ≠ 0) := by
    push_neg
    exact hw
  have hhok : ¬(¬(256 ≤ height ∧ height ≤ 1024) ∨ height % 64 ≠ 0) := by
    push_neg
    exact hh
  have hsok : ¬¬(10 ≤ steps ∧ steps ≤ 50) := not_not_intro hs
  have hgok : ¬¬(1 ≤ g ∧ g ≤ 20) := not_not_intro hg
  have hmr : make_request "v1/text-to-image" "POST" w 60 =
      (.error (.requestException ("Request timeout after " ++ toString 60 ++ "s for " ++
        "v1/text-to-image")), 1) := by
    unfold make_request
    rw [if_pos (Or.inl (show pyUpper "POST" = "POST" from by decide)), hto]
  have hgen : generate_hd_image prompt width height steps g w =
      (.error (.requestException ("Request timeout after " ++ toString 60 ++ "s for " ++
        "v1/text-to-image")), 1) := by
    rw [generate_hd_image, if_neg hcond, if_neg hwok, if_neg hhok, if_neg hsok,
      if_neg hgok, hmr]
  have hres : (hd_service_call prompt width height steps g w).result =
      .error (.requestException ("Request timeout after " ++ toString 60 ++ "s for " ++
        "v1/text-to-image")) := by
    simp [hd_service_call, hgen]
  have hel : (hd_service_call prompt width height steps g w).elapsed = w.duration := by
    simp [hd_service_call, hgen]
  refine ⟨?_, ?_, fun s text => (timeout_msg_distinct 60 "v1/text-to-image" s text "").1,
    fun ep2 => (timeout_msg_distinct 60 "v1/text-to-image" 0 "" ep2).2⟩
  · simp [make_api_call, hres, PyExc.msg]
  · refine ⟨⟨"hd_image_generation",
      (hd_service_call prompt width height steps g w).elapsed, "error",
      some ("Request timeout after " ++ toString 60 ++ "s for " ++ "v1/text-to-image")⟩,
      ?_, ?_, ?_⟩
    · simp [make_api_call, hres, log_api_call, PyExc.msg]
    · exact hel
    · rw [hel]
      exact hd

/-- Witness for C6: a valid request whose transport attempt times out after
61 seconds against the 60-second deadline yields the Timeout failure and
one log entry with duration 61 ≥ 60. -/
theorem timeout_call_one_entry_witness :
    (make_api_call "hd_image_generation"
        (hd_service_call "a red shoe on white background" 512 512 20 (15/2)
          ⟨.timeout, 61⟩) ⟨[], []⟩).1 =
      (none, some ("Request timeout after " ++ toString 60 ++ "s for " ++
        "v1/text-to-image")) ∧
    (∃ entry : ApiCallEntry,
      ((make_api_call "hd_image_generation"
          (hd_service_call "a red shoe on white background" 512 512 20 (15/2)
            ⟨.timeout, 61⟩) ⟨[], []⟩).2).api_calls = [] ++ [entry] ∧
      entry.duration = 61 ∧ (60 : ℚ) ≤ entry.duration) := by
  obtain ⟨h1, h2, _, _⟩ := timeout_call_one_entry "a red shoe on white background"
    512 512 20 (15/2) ⟨.timeout, 61⟩ ⟨[], []⟩
    (by decide) (by norm_num) (by norm_num) (by norm_num) (by norm_num) rfl (by norm_num)
  exact ⟨h1, h2⟩
